import Mathlib

/-!
# Verification of the fastapi-web-server security-and-proxy pipeline

Shallow embedding of the security/monitoring core of the repository
(`app/security.py`, `app/monitoring.py`, `app/main.py`) and proofs of the
specification claims about it.

Modelling conventions:
* wall-clock times (`time.time()`, parsed `datetime`s) are integers on a
  common linear scale (seconds);
* Python dicts keyed by strings are total functions `String → Option _` or
  `String → _` with the defaultdict default;
* the module-level singletons (`security_manager`, `attack_monitor`) become a
  single explicit state record `ServerState` threaded through the functions,
  mirroring the in-place mutation of the Python objects;
* string primitives (`in`, `endswith`, `split`, `strip`, `lower`) are
  re-implemented over `List Char` so that everything reduces in the kernel;
  `.lower()` is modelled on ASCII letters.
-/

/-! ## String helpers (models of the Python string primitives used) -/

/-- Model of Python `sub in s` (substring containment). -/
def str_contains (s pat : String) : Bool :=
  (List.range (s.data.length + 1)).any fun i => pat.data.isPrefixOf (s.data.drop i)

/-- Model of Python `s.startswith(pat)`. -/
def str_starts_with (s pat : String) : Bool :=
  pat.data.isPrefixOf s.data

/-- Model of Python `s.endswith(pat)`. -/
def str_ends_with (s pat : String) : Bool :=
  pat.data.reverse.isPrefixOf s.data.reverse

/-- Model of Python `s.lower()` (ASCII). -/
def str_lower (s : String) : String :=
  ⟨s.data.map fun c => if 'A' ≤ c ∧ c ≤ 'Z' then Char.ofNat (c.toNat + 32) else c⟩

/-- Split a character list at every occurrence of `c` (Python `s.split(c)`
for a one-character separator: always returns at least one piece). -/
def split_char_list (c : Char) : List Char → List (List Char)
  | [] => [[]]
  | x :: xs =>
    let r := split_char_list c xs
    if x = c then [] :: r
    else
      match r with
      | [] => [[x]]
      | y :: ys => (x :: y) :: ys

/-- Model of Python `s.split(c)` for a one-character separator. -/
def str_split (s : String) (c : Char) : List String :=
  (split_char_list c s.data).map fun l => ⟨l⟩

/-- Python whitespace test for `str.strip()` (ASCII fragment). -/
def py_is_space (c : Char) : Bool :=
  c = ' ' ∨ c = '\t' ∨ c = '\n' ∨ c = '\r'

/-- Model of Python `s.strip()` (ASCII whitespace). -/
def str_strip (s : String) : String :=
  ⟨((s.data.dropWhile py_is_space).reverse.dropWhile py_is_space).reverse⟩

/-- Model of Python `s[n:]` for ASCII strings. -/
def str_drop (s : String) (n : Nat) : String :=
  ⟨s.data.drop n⟩

/-! ## `app/security.py` — `SecurityManager` configuration

The `self.config` dict set in `SecurityManager.__init__` and never mutated
anywhere in the repository. -/

def max_requests_per_minute : Nat := 100
def block_duration : Int := 3600
def suspicious_request_threshold : Nat := 5
def enable_ip_blocking : Bool := true
def enable_rate_limiting : Bool := true
def enable_threat_detection : Bool := true
def log_suspicious_activity : Bool := true

/-! ## `app/monitoring.py` — `AttackMonitor` configuration -/

def threat_score_threshold : Nat := 10

/-! ## Data model -/

/-- One entry of `AttackMonitor.recent_attacks` (the dict built in
`AttackMonitor.log_attack`); `timestamp` is `datetime.now()` on the linear
integer time scale (the code stores its `isoformat()` and parses it back with
`datetime.fromisoformat`, which round-trips). -/
structure AttackEntry where
  timestamp : Int
  client_ip : String
  attack_type : String
  method : String
  url : String
  user_agent : String
  details : String
  threat_level : String
deriving DecidableEq, Repr

/-- The request descriptor: the parts of the FastAPI/Starlette `Request`
object that `security.py` reads.  `headers` is the case-insensitive header
multimap modelled with lowercase keys; `peer` is `request.client.host`
(`none` when `request.client` is `None`); `path` is `request.url.path` and
`query` is `str(request.query_params)`. -/
structure RequestInfo where
  method : String
  url : String
  path : String
  query : String
  user_agent : String
  headers : String → Option String
  peer : Option String

/-- The combined mutable state of the two module-level singletons
`security_manager : SecurityManager` and `attack_monitor : AttackMonitor`:
`blockedIps` and `requestCounts` are `SecurityManager.blocked_ips` /
`SecurityManager.request_counts` (a `defaultdict(list)`), the remaining
fields are `AttackMonitor.attack_stats` counters, `ip_threat_scores`
(a `defaultdict(int)`) and the bounded `recent_attacks` deque. -/
structure ServerState where
  blockedIps : String → Option Int
  requestCounts : String → List Int
  total_attacks : Nat
  attack_types : String → Nat
  blocked_requests : Nat
  suspicious_requests : Nat
  ip_threat_scores : String → Nat
  recent_attacks : List AttackEntry

/-- Fresh process state: both singletons as constructed at import time. -/
def initial_state : ServerState where
  blockedIps := fun _ => none
  requestCounts := fun _ => []
  total_attacks := 0
  attack_types := fun _ => 0
  blocked_requests := 0
  suspicious_requests := 0
  ip_threat_scores := fun _ => 0
  recent_attacks := []

/-! ## `app/monitoring.py` — threat scoring -/

/-- `AttackMonitor._calculate_threat_level`. -/
def calculate_threat_level (attack_type : String) : String :=
  let high_threat : List String := ["sql_injection", "rce", "path_traversal", "file_inclusion"]
  let medium_threat : List String := ["xss_attacks", "directory_traversal", "csrf"]
  let low_threat : List String := ["scanning", "probing", "information_gathering"]
  if attack_type ∈ high_threat then "HIGH"
  else if attack_type ∈ medium_threat then "MEDIUM"
  else if attack_type ∈ low_threat then "LOW"
  else "UNKNOWN"

/-- `AttackMonitor._get_threat_score`: `score_map.get(level, 2)` for the fixed
`score_map = {HIGH: 5, MEDIUM: 3, LOW: 1, UNKNOWN: 2}`. -/
def get_threat_score (attack_type : String) : Nat :=
  let threat_level := calculate_threat_level attack_type
  if threat_level = "HIGH" then 5
  else if threat_level = "MEDIUM" then 3
  else if threat_level = "LOW" then 1
  else if threat_level = "UNKNOWN" then 2
  else 2

/-! ## `app/monitoring.py` — event recording -/

/-- `collections.deque(maxlen=1000).append`: append on the right, evicting
from the left when the deque is full. -/
def deque_push (xs : List AttackEntry) (x : AttackEntry) : List AttackEntry :=
  let ys := xs ++ [x]
  if ys.length > 1000 then ys.drop (ys.length - 1000) else ys

/-- `AttackMonitor.log_blocked_request` (its in-memory effect: the
`attack_stats["blocked_requests"] += 1` counter update; file logging is
best-effort I/O with no in-memory effect). -/
def log_blocked_request (s : ServerState) (_client_ip _reason : String) : ServerState :=
  { s with blocked_requests := s.blocked_requests + 1 }

/-- `AttackMonitor.log_suspicious_request` (in-memory effect:
`attack_stats["suspicious_requests"] += 1`). -/
def log_suspicious_request (s : ServerState) (_client_ip _reason : String) : ServerState :=
  { s with suspicious_requests := s.suspicious_requests + 1 }

/-- The `attack_entry` dict built by `AttackMonitor.log_attack`. -/
def attack_entry_of (r : RequestInfo) (attack_type details client_ip : String)
    (now : Int) : AttackEntry where
  timestamp := now
  client_ip := client_ip
  attack_type := attack_type
  method := r.method
  url := r.url
  user_agent := r.user_agent
  details := details
  threat_level := calculate_threat_level attack_type

/-- `AttackMonitor.log_attack`: bump `total_attacks` and the per-type
counter, add the threat score to the client's total, append the entry to the
bounded history (file logging and the HIGH-threat alert are log-only). -/
def log_attack (s : ServerState) (r : RequestInfo)
    (attack_type details client_ip : String) (now : Int) : ServerState :=
  { s with
    total_attacks := s.total_attacks + 1
    attack_types := fun t => if t = attack_type then s.attack_types t + 1 else s.attack_types t
    ip_threat_scores := fun ip =>
      if ip = client_ip then s.ip_threat_scores ip + get_threat_score attack_type
      else s.ip_threat_scores ip
    recent_attacks := deque_push s.recent_attacks (attack_entry_of r attack_type details client_ip now) }

/-! ## `app/security.py` — `SecurityManager` operations -/

/-- `SecurityManager.is_ip_blocked`: returns the boolean and the state (the
Python method mutates `self.blocked_ips` in place, lazily deleting an
expired entry). -/
def is_ip_blocked (s : ServerState) (ip : String) (now : Int) : Bool × ServerState :=
  if !enable_ip_blocking then (false, s)
  else
    match s.blockedIps ip with
    | some block_time =>
      if now - block_time < block_duration then (true, s)
      else (false, { s with blockedIps := fun x => if x = ip then none else s.blockedIps x })
    | none => (false, s)

/-- `SecurityManager.block_ip`: record the block time and log the blocked
request through the attack monitor. -/
def block_ip (s : ServerState) (ip : String) (reason : String) (now : Int) : ServerState :=
  if !enable_ip_blocking then s
  else
    let s := { s with blockedIps := fun x => if x = ip then some now else s.blockedIps x }
    log_blocked_request s ip reason

/-- `SecurityManager.check_rate_limit`: prune the client's timestamps to the
last 60 seconds (storing the pruned list back), deny and auto-block when the
pruned count reaches `max_requests_per_minute`, otherwise append `now`. -/
def check_rate_limit (s : ServerState) (ip : String) (now : Int) : Bool × ServerState :=
  if !enable_rate_limiting then (true, s)
  else
    let pruned := (s.requestCounts ip).filter fun req_time => decide (now - req_time < 60)
    let s := { s with requestCounts := fun x => if x = ip then pruned else s.requestCounts x }
    if pruned.length ≥ max_requests_per_minute then
      (false, block_ip s ip "Rate limit exceeded" now)
    else
      (true, { s with requestCounts := fun x => if x = ip then pruned ++ [now] else s.requestCounts x })

/-- `SecurityManager.count_suspicious_requests`: the length of the client's
timestamp list restricted to the last 60 seconds (read-only). -/
def count_suspicious_requests (s : ServerState) (ip : String) (now : Int) : Nat :=
  ((s.requestCounts ip).filter fun req_time => decide (now - req_time < 60)).length

/-! ## `app/security.py` — suspicious-pattern detection -/

/-- `SecurityManager.suspicious_patterns["paths"]`. -/
def suspicious_paths : List String :=
  [".env", ".git/config", ".git/HEAD", ".git/credentials", "admin/config.php",
   "phpinfo.php", "info.php", "phpinfo", "config.json", "client_secrets.json",
   "appsettings.json", "actuator/env", "actuator/health", "debug/default/view",
   "v2/_catalog", "_all_dbs", "server-status", "owa/auth/logon.aspx",
   "ecp/Current/exporttool/", "+CSCOL+/", "+CSCOE+/", "cgi-bin/luci/",
   "vendor/phpunit/phpunit/src/Util/PHP/eval-stdin.php", "_profiler/phpinfo",
   "web/debug/default/view", ".well-known/security.txt", "sitemap.xml",
   "robots.txt", "login", "login.action", "admin", "wp-admin", "backup",
   "backup.zip", "dump.sql", "database.sql", "config.php", "settings.php",
   "wp-config.php", ".DS_Store", "Thumbs.db", "desktop.ini"]

/-- `SecurityManager.suspicious_patterns["extensions"]`. -/
def suspicious_extensions : List String :=
  [".env", ".bak", ".old", ".backup", ".dist", ".example", ".pem", ".key",
   ".cert", ".crt", ".pfx", ".p12", ".sql", ".dump", ".back", ".save", ".log",
   ".txt", ".ini", ".conf", ".cfg", ".yml", ".yaml", ".json", ".xml", ".php",
   ".asp", ".aspx", ".jsp", ".py", ".rb"]

/-- `SecurityManager.suspicious_patterns["params"]`. -/
def suspicious_params : List String :=
  ["cmd", "exec", "system", "eval", "shell", "bash", "php", "python", "perl",
   "ruby", "javascript", "union", "select", "insert", "update", "delete",
   "drop", "create", "alter", "truncate", "script", "alert", "document.cookie",
   "onload", "onerror", "onclick", "onmouseover"]

/-- The `sql_patterns` list inside `SecurityManager.is_suspicious_request`. -/
def sql_injection_patterns : List String :=
  ["union select", "select * from", "insert into", "drop table"]

/-- `SecurityManager.is_suspicious_request`, modelled at the granularity of
its boolean verdict (the Python method also returns a free-text reason whose
exact value depends on the iteration order of a Python `set`; no claim
depends on it).  The five checks run in the source's order on the lowercased
path and query string; the directory-traversal check `".." in path or "../"
in path` collapses to its first disjunct. -/
def is_suspicious_request (r : RequestInfo) : Bool :=
  if !enable_threat_detection then false
  else
    let path := str_lower r.path
    let query_string := str_lower r.query
    (suspicious_paths.any fun pat => str_contains path pat) ||
    (suspicious_extensions.any fun ext => str_ends_with path ext) ||
    (suspicious_params.any fun param => str_contains query_string param) ||
    str_contains path ".." ||
    (sql_injection_patterns.any fun pat => str_contains query_string pat)

/-! ## `app/security.py` — client identity -/

/-- The header list scanned by `SecurityManager.get_client_ip`, in order. -/
def client_ip_headers : List String :=
  ["x-real-ip", "x-forwarded-for", "x-forwarded", "forwarded-for", "fwd"]

/-- The per-header step of `SecurityManager.get_client_ip`: a present,
non-empty header value wins (Python truthiness of the string); a value
containing a comma is replaced by its first comma-separated entry, stripped. -/
def get_client_ip_from (r : RequestInfo) : List String → String
  | [] =>
    match r.peer with
    | some host => host
    | none => "unknown"
  | header :: rest =>
    match r.headers header with
    | some ip =>
      if ip ≠ "" then
        if str_contains ip "," then str_strip ((str_split ip ',').headD "")
        else ip
      else get_client_ip_from r rest
    | none => get_client_ip_from r rest

/-- `SecurityManager.get_client_ip`. -/
def get_client_ip (r : RequestInfo) : String :=
  get_client_ip_from r client_ip_headers

/-! ## `app/security.py` — per-request decision -/

/-- The deny reasons `SecurityManager.analyze_request` can produce (the
free-text suffix of the multiple-suspicious reason is not modelled). -/
inductive BlockReason where
  | ipBlocked
  | rateLimitExceeded
  | multipleSuspicious
deriving DecidableEq, Repr

/-- `SecurityManager.analyze_request`: resolve the client identity, then in
order: already-blocked check, rate limit (with auto-block), suspicious
pattern match with the per-minute suspicious-count threshold (auto-block and
a `"scanning"` attack record when reached).  Returns
`((should_block, reason), state)`. -/
def analyze_request (s : ServerState) (r : RequestInfo) (now : Int) :
    (Bool × Option BlockReason) × ServerState :=
  let client_ip := get_client_ip r
  let (blocked, s) := is_ip_blocked s client_ip now
  if blocked then ((true, some .ipBlocked), s)
  else
    let (allowed, s) := check_rate_limit s client_ip now
    if !allowed then ((true, some .rateLimitExceeded), s)
    else
      if is_suspicious_request r then
        let s := if log_suspicious_activity then log_suspicious_request s client_ip "" else s
        let suspicious_count := count_suspicious_requests s client_ip now
        if suspicious_count ≥ suspicious_request_threshold then
          let s := block_ip s client_ip "Multiple suspicious requests" now
          let s := log_attack s r "scanning" "" client_ip now
          ((true, some .multipleSuspicious), s)
        else ((false, none), s)
      else ((false, none), s)

/-- Outcome of `security_middleware`: a 403 denial or the request forwarded
to `call_next`. -/
inductive MiddlewareOutcome where
  | denied403
  | forwarded
deriving DecidableEq, Repr

/-- `security_middleware`: run `analyze_request`; on a deny, log the blocked
request through the monitor and raise HTTP 403, else forward. -/
def security_middleware (s : ServerState) (r : RequestInfo) (now : Int) :
    MiddlewareOutcome × ServerState :=
  let ((should_block, _reason), s) := analyze_request s r now
  if should_block then
    let s := log_blocked_request s (get_client_ip r) ""
    (.denied403, s)
  else (.forwarded, s)

/-! ## `app/monitoring.py` — windowed pattern analysis

The staged source of `AttackMonitor.analyze_attack_patterns` (lines
308-346) is not syntactically valid Python: line 314 assigns the empty
dict display and lines 315-318 are a dangling comprehension body closed by
an unmatched `]` (transcribed byte-for-byte in
`analyze_patterns_staged_lines` below), so the module cannot be imported
and the function has no behaviour.  The definitions in this section
reconstruct the computation those lines evidently intend — the list
comprehension spelled out by the orphaned `attack / for ... / if ...` body
(which also matches the spec's wording: filter to parsed timestamp
strictly greater than `now` minus the window), followed by the well-formed
counting loop of lines 320-346.  They support the code-bug diagnosis of
the staged function; they are a reconstruction, not an embedding of the
staged text. -/

/-- Byte-for-byte transcription of `monitoring.py` lines 314-318, the body
of `analyze_attack_patterns` between the `cutoff_time` assignment and the
`analysis` dict: an assignment of the empty dict display followed by a
dangling comprehension body and an unmatched closing bracket. -/
def analyze_patterns_staged_lines : List String :=
  ["        recent_attacks = \x7b\x7d",
   "            attack",
   "            for attack in self.recent_attacks",
   "            if datetime.fromisoformat(attack[\"timestamp\"]) > cutoff_time",
   "        ]"]

/-- Occurrences of a character in a string. -/
def count_char (s : String) (c : Char) : Nat :=
  (s.data.filter fun x => decide (x = c)).length

/-- Occurrences of a character across a list of lines. -/
def count_char_in_lines (ls : List String) (c : Char) : Nat :=
  (ls.map fun s => count_char s c).foldl (· + ·) 0

/-- The analysis record built by `AttackMonitor.analyze_attack_patterns`
(the four `defaultdict(int)` groupings as total count functions). -/
structure PatternAnalysis where
  time_window_hours : Int
  total_attacks : Nat
  attack_types : String → Nat
  top_attackers : String → Nat
  most_targeted_paths : String → Nat
  threat_levels : String → Nat

/-- `defaultdict(int)` increment: `d[k] += 1`. -/
def bump (m : String → Nat) (k : String) : String → Nat :=
  fun x => if x = k then m x + 1 else m x

/-- The URL-to-path step of `analyze_attack_patterns`:
`attack["url"].split("?")[0]`. -/
def strip_query (url : String) : String :=
  (str_split url '?').headD ""

/-- The loop body of `analyze_attack_patterns`: bump the four groupings for
one in-window attack entry. -/
def analysis_step (a : PatternAnalysis) (attack : AttackEntry) : PatternAnalysis :=
  { a with
    attack_types := bump a.attack_types attack.attack_type
    top_attackers := bump a.top_attackers attack.client_ip
    threat_levels := bump a.threat_levels attack.threat_level
    most_targeted_paths := bump a.most_targeted_paths (strip_query attack.url) }

/-- Reconstruction of `AttackMonitor.analyze_attack_patterns` (see the
section comment: the staged filter at lines 314-318 is syntactically
invalid): filter the in-memory history to entries whose (parsed) timestamp
is strictly after `now - timedelta(hours=time_window_hours)` — the intent
of the orphaned comprehension body — then fold the counting loop of lines
329-338. -/
def analyze_attack_patterns (s : ServerState) (now : Int) (time_window_hours : Int) :
    PatternAnalysis :=
  let cutoff_time := now - time_window_hours * 3600
  let recent := s.recent_attacks.filter fun attack => decide (attack.timestamp > cutoff_time)
  let a : PatternAnalysis :=
    { time_window_hours := time_window_hours
      total_attacks := recent.length
      attack_types := fun _ => 0
      top_attackers := fun _ => 0
      most_targeted_paths := fun _ => 0
      threat_levels := fun _ => 0 }
  recent.foldl analysis_step a

/-! ## `app/monitoring.py` — `get_high_threat_ips` and the attribute it reads

`AttackMonitor.get_high_threat_ips` iterates `self.threat_scores.items()`,
but no method of `AttackMonitor` ever assigns an attribute named
`threat_scores`: `__init__` assigns exactly the attributes listed below, the
score store is `self.ip_threat_scores` (assigned in `__init__`, incremented
in `log_attack`, read in `get_monitoring_stats`), and no other assignment to
a `self.` attribute exists in the class.  Every call therefore raises
`AttributeError` before reaching the threshold filter or the sort. -/

/-- The instance attributes assigned by `AttackMonitor.__init__` (the only
place attributes are created on the instance). -/
def attack_monitor_instance_attributes : List String :=
  ["log_dir", "attack_stats", "recent_attacks", "ip_threat_scores",
   "attack_patterns", "config"]

/-- The attribute name `AttackMonitor.get_high_threat_ips` reads its scores
from (`for ip, score in self.threat_scores.items()`). -/
def get_high_threat_ips_score_attribute : String := "threat_scores"

/-! ## A model of the Python `json` fragment used by `proxy_request`

`app/main.py` re-serializes JSON backend bodies with
`json.dumps(response.json())`.  We model `json.loads`/`json.dumps` on the
JSON fragment with integer numbers and escape-free printable-ASCII strings;
inputs outside the fragment (floats, escapes, non-ASCII) are treated as
parse failures, on which `proxy_request` falls back to
`response.text.encode("utf-8")` — the identity on the decoded body in this
model.  `json.dumps` uses Python's default separators (item `", "`,
key `": "`) and does not need to escape any character the parser accepts. -/

def lbrace : Char := Char.ofNat 123
def rbrace : Char := Char.ofNat 125

def json_ws (c : Char) : Bool :=
  c = ' ' || c = '\t' || c = '\n' || c = '\r'

def json_skip_ws (cs : List Char) : List Char :=
  cs.dropWhile json_ws

def is_digit_char (c : Char) : Bool :=
  '0' ≤ c && c ≤ '9'

def digits_to_nat (ds : List Char) : Nat :=
  ds.foldl (fun n c => n * 10 + (c.toNat - 48)) 0

/-- Parse a nonempty digit run; fail if it is followed by a float marker
(`.`/`e`/`E`) — floats are outside the modelled fragment. -/
def json_parse_nat (cs : List Char) : Option (Nat × List Char) :=
  let ds := cs.takeWhile is_digit_char
  if ds.isEmpty then none
  else
    let rest := cs.drop ds.length
    match rest with
    | c :: _ => if c = '.' || c = 'e' || c = 'E' then none else some (digits_to_nat ds, rest)
    | [] => some (digits_to_nat ds, [])

def json_parse_number (cs : List Char) : Option (Int × List Char) :=
  match cs with
  | '-' :: rest => (json_parse_nat rest).map fun p => (-(p.1 : Int), p.2)
  | _ => (json_parse_nat cs).map fun p => ((p.1 : Int), p.2)

/-- Body of a JSON string after the opening quote: printable ASCII without
escapes; the closing quote terminates. -/
def json_parse_string_body : List Char → Option (List Char × List Char)
  | [] => none
  | c :: rest =>
    if c = '"' then some ([], rest)
    else if c = '\\' || c.toNat < 32 || c.toNat ≥ 127 then none
    else (json_parse_string_body rest).map fun p => (c :: p.1, p.2)

/-- JSON values of the modelled fragment. -/
inductive PyJson where
  | null
  | bool (b : Bool)
  | num (n : Int)
  | str (s : String)
  | arr (xs : List PyJson)
  | obj (kvs : List (String × PyJson))

mutual

def json_parse_value : Nat → List Char → Option (PyJson × List Char)
  | 0, _ => none
  | fuel + 1, cs =>
    match json_skip_ws cs with
    | 'n' :: 'u' :: 'l' :: 'l' :: rest => some (.null, rest)
    | 't' :: 'r' :: 'u' :: 'e' :: rest => some (.bool true, rest)
    | 'f' :: 'a' :: 'l' :: 's' :: 'e' :: rest => some (.bool false, rest)
    | '"' :: rest => (json_parse_string_body rest).map fun p => (.str ⟨p.1⟩, p.2)
    | '[' :: rest =>
      (match json_skip_ws rest with
       | ']' :: r2 => some (.arr [], r2)
       | _ => (json_parse_elems fuel rest).map fun p => (.arr p.1, p.2))
    | c :: rest =>
      if c = lbrace then
        match json_skip_ws rest with
        | d :: r2 =>
          if d = rbrace then some (.obj [], r2)
          else (json_parse_members fuel rest).map fun p => (.obj p.1, p.2)
        | [] => none
      else (json_parse_number (c :: rest)).map fun p => (.num p.1, p.2)
    | [] => none

def json_parse_elems : Nat → List Char → Option (List PyJson × List Char)
  | 0, _ => none
  | fuel + 1, cs =>
    (json_parse_value fuel cs).bind fun p =>
      match json_skip_ws p.2 with
      | ',' :: r2 => (json_parse_elems fuel r2).map fun q => (p.1 :: q.1, q.2)
      | ']' :: r2 => some ([p.1], r2)
      | _ => none

def json_parse_members : Nat → List Char → Option (List (String × PyJson) × List Char)
  | 0, _ => none
  | fuel + 1, cs =>
    match json_skip_ws cs with
    | '"' :: rest =>
      (json_parse_string_body rest).bind fun k =>
        match json_skip_ws k.2 with
        | ':' :: r2 =>
          (json_parse_value fuel r2).bind fun v =>
            match json_skip_ws v.2 with
            | ',' :: r4 => (json_parse_members fuel r4).map fun q => ((⟨k.1⟩, v.1) :: q.1, q.2)
            | d :: r4 => if d = rbrace then some ([(⟨k.1⟩, v.1)], r4) else none
            | [] => none
        | _ => none
    | _ => none

end

/-- Model of `json.loads` on the fragment: parse one value, allow trailing
whitespace, require full consumption. -/
def json_loads (s : String) : Option PyJson :=
  match json_parse_value (2 * s.data.length + 2) s.data with
  | some (v, rest) => if json_skip_ws rest = [] then some v else none
  | none => none

mutual

/-- Model of `json.dumps` (default separators) on the fragment. -/
def json_dumps : PyJson → String
  | .null => "null"
  | .bool true => "true"
  | .bool false => "false"
  | .num n => toString n
  | .str s => "\"" ++ s ++ "\""
  | .arr xs => "[" ++ json_dumps_elems xs ++ "]"
  | .obj kvs => String.singleton lbrace ++ json_dumps_members kvs ++ String.singleton rbrace

def json_dumps_elems : List PyJson → String
  | [] => ""
  | [x] => json_dumps x
  | x :: y :: xs => json_dumps x ++ ", " ++ json_dumps_elems (y :: xs)

def json_dumps_members : List (String × PyJson) → String
  | [] => ""
  | [kv] => "\"" ++ kv.1 ++ "\": " ++ json_dumps kv.2
  | kv :: kw :: kvs => "\"" ++ kv.1 ++ "\": " ++ json_dumps kv.2 ++ ", " ++ json_dumps_members (kw :: kvs)

end

/-! ## `app/main.py` — `proxy_request` response transformation -/

/-- The backend's HTTP response as `httpx` exposes it: status code, headers
(an assoc list with lowercase, pairwise-distinct keys — `httpx` header
names are case-insensitive) and the body, modelled as the decoded text. -/
structure BackendResponse where
  status : Nat
  headers : List (String × String)
  body : String
deriving DecidableEq, Repr

/-- The response `proxy_request` returns to the client on backend success. -/
structure GatewayResponse where
  status : Nat
  headers : List (String × String)
  body : String
  media_type : String
deriving DecidableEq, Repr

/-- Python `headers.get(k, dflt)` on the assoc-list header model. -/
def headers_get (hs : List (String × String)) (k dflt : String) : String :=
  match hs.find? (fun kv => kv.1 == k) with
  | some kv => kv.2
  | none => dflt

/-- Python `headers.pop(k, None)` (the removal effect). -/
def headers_pop (hs : List (String × String)) (k : String) : List (String × String) :=
  hs.filter fun kv => !(kv.1 == k)

/-- `json.dumps(response.json())` with the source's fallback
`response.text.encode("utf-8")` on a `response.json()` failure. -/
def json_reencode (body : String) : String :=
  match json_loads body with
  | some v => json_dumps v
  | none => body

/-- The success branch of `proxy_request` (lines 94-112 of `app/main.py`):
pop `content-length` from the backend headers, re-serialize the body when
the backend `content-type` starts with `application/json`, and build the
`Response` with the backend status and `content-type` (default
`text/plain`) as media type. -/
def proxy_response_transform (resp : BackendResponse) : GatewayResponse :=
  let response_headers := headers_pop resp.headers "content-length"
  let content :=
    if str_starts_with (headers_get resp.headers "content-type" "") "application/json" then
      json_reencode resp.body
    else resp.body
  { status := resp.status
    headers := response_headers
    body := content
    media_type := headers_get resp.headers "content-type" "text/plain" }

/-! ## `app/main.py` — Range-request handling in `serve_file_with_etag_and_range` -/

/-- Model of Python `int(s)` on the (sign-free) strings produced by
splitting a range spec on `-`: optional surrounding ASCII whitespace, an
optional leading `+`, then a nonempty digit run; anything else raises
`ValueError` (modelled as `none`). -/
def python_int (s : String) : Option Int :=
  let cs := ((s.data.dropWhile py_is_space).reverse.dropWhile py_is_space).reverse
  let cs := match cs with
    | '+' :: rest => rest
    | _ => cs
  if !cs.isEmpty && cs.all is_digit_char then some (digits_to_nat cs) else none

/-- The parsing loop of the Range branch (lines 179-185 of `app/main.py`):
for each comma-separated part containing `-`, split on `-`; a two-piece
split contributes `(start, min end (file_size - 1))` with empty pieces
defaulting to `0` / `file_size - 1`; a failing `int()` raises (the
surrounding `try` catches it).  Parts without `-` or with a split arity
other than 2 are skipped. -/
def parse_range_parts (file_size : Int) : List String → Except Unit (List (Int × Int))
  | [] => .ok []
  | part :: rest =>
    if str_contains part "-" then
      let start_end := str_split part '-'
      if start_end.length = 2 then
        match (if start_end.headD "" = "" then some 0 else python_int (start_end.headD "")) with
        | none => .error ()
        | some start =>
          match (if (start_end.drop 1).headD "" = "" then some (file_size - 1)
                 else python_int ((start_end.drop 1).headD "")) with
          | none => .error ()
          | some stop =>
            (parse_range_parts file_size rest).map
              fun rs => (start, min stop (file_size - 1)) :: rs
      else parse_range_parts file_size rest
    else parse_range_parts file_size rest

/-- Parse a full `bytes=`-stripped range spec. -/
def parse_ranges (file_size : Int) (range_spec : String) : Except Unit (List (Int × Int)) :=
  parse_range_parts file_size (str_split range_spec ',')

/-- Outcome of the Range portion of `serve_file_with_etag_and_range`
(after the conditional-request checks): a 206 partial-content response for
the first parsed range, or the full-file 200 serve. -/
inductive RangeServeOutcome where
  | fullFile
  | partialContent (start stop : Int)
deriving DecidableEq, Repr

/-- Lines 171-229 of `app/main.py`: take the Range branch only when the
header is present and starts with `bytes=`; any exception in the branch and
an empty parsed range list both fall through to the full-file serve; a
nonempty parse serves the first range as 206 Partial Content. -/
def serve_range_portion (file_size : Int) (range_header : Option String) : RangeServeOutcome :=
  match range_header with
  | none => .fullFile
  | some h =>
    if str_starts_with h "bytes=" then
      match parse_ranges file_size (str_drop h 6) with
      | .error _ => .fullFile
      | .ok [] => .fullFile
      | .ok ((start, stop) :: _) => .partialContent start stop
    else .fullFile

/-- The HTTP status of each Range-portion outcome (`Response(status_code=206)`
for a served range, the 200 `FileResponse` otherwise). -/
def range_outcome_status : RangeServeOutcome → Nat
  | .fullFile => 200
  | .partialContent _ _ => 206

/-! ## Fixtures used by concrete witnesses -/

/-- A benign concrete request (no suspicious pattern, no identity headers). -/
def sample_request : RequestInfo where
  method := "GET"
  url := "/index.html"
  path := "/index.html"
  query := ""
  user_agent := ""
  headers := fun _ => none
  peer := some "203.0.113.7"

/-! ## Claim C2 — block expiry and re-block reset -/

/-- C2: an IP whose block-registry entry carries block time `T` is reported
blocked (state untouched) at every check time `now` with
`now - T < block_duration`, and at every check time `now'` with
`now' - T ≥ block_duration` the check returns false and removes the entry
(lazy expiry); re-blocking at any time resets the entry to that time. -/
theorem block_expiry_spec (s : ServerState) (ip reason : String) (T now now' reblock_time : Int)
    (hT : s.blockedIps ip = some T) :
    (now - T < block_duration → is_ip_blocked s ip now = (true, s)) ∧
    (block_duration ≤ now' - T →
      (is_ip_blocked s ip now').1 = false ∧
      (is_ip_blocked s ip now').2.blockedIps ip = none) ∧
    (block_ip s ip reason reblock_time).blockedIps ip = some reblock_time := by
  refine ⟨fun hlt => ?_, fun hge => ?_, ?_⟩
  · simp [is_ip_blocked, enable_ip_blocking, hT, hlt]
  · have hnot : ¬ (now' - T < block_duration) := not_lt.mpr hge
    constructor
    · simp [is_ip_blocked, enable_ip_blocking, hT, hnot]
    · simp [is_ip_blocked, enable_ip_blocking, hT, hnot]
  · simp [block_ip, log_blocked_request, enable_ip_blocking]

/-- Witness for C2 at a concrete input: block `1.2.3.4` at time 5; the check
at 6 sees the block, the check at 3700 expires and removes it, re-blocking
at 9 resets the time. -/
theorem block_expiry_spec_witness :
    (is_ip_blocked (block_ip initial_state "1.2.3.4" "test" 5) "1.2.3.4" 6
      = (true, block_ip initial_state "1.2.3.4" "test" 5)) ∧
    (is_ip_blocked (block_ip initial_state "1.2.3.4" "test" 5) "1.2.3.4" 3700).1 = false ∧
    (is_ip_blocked (block_ip initial_state "1.2.3.4" "test" 5) "1.2.3.4" 3700).2.blockedIps "1.2.3.4" = none ∧
    (block_ip (block_ip initial_state "1.2.3.4" "test" 5) "1.2.3.4" "again" 9).blockedIps "1.2.3.4" = some 9 := by
  obtain ⟨h1, h2, h3⟩ :=
    block_expiry_spec (block_ip initial_state "1.2.3.4" "test" 5) "1.2.3.4" "again" 5 6 3700 9
      (by decide)
  exact ⟨h1 (by decide), (h2 (by decide)).1, (h2 (by decide)).2, h3⟩

/-! ## Claim C3 — threat-level mapping and score accumulation -/

/-- `AttackMonitor.log_attack` iterated `N` times with the same arguments. -/
def log_attack_iter (s : ServerState) (r : RequestInfo)
    (attack_type details client_ip : String) (now : Int) : Nat → ServerState
  | 0 => s
  | n + 1 => log_attack (log_attack_iter s r attack_type details client_ip now n)
      r attack_type details client_ip now

/-- C3: the fixed threat-level/score mapping of
`_calculate_threat_level`/`_get_threat_score`, and `5*N` accumulation of an
IP's threat score over `N` `sql_injection` attack records. -/
theorem threat_score_mapping_spec (t ip : String) (s : ServerState) (r : RequestInfo)
    (details : String) (now : Int) (N : Nat)
    (hother : t ∉ (["sql_injection", "rce", "path_traversal", "file_inclusion",
      "xss_attacks", "directory_traversal", "csrf",
      "scanning", "probing", "information_gathering"] : List String)) :
    (calculate_threat_level "sql_injection" = "HIGH" ∧ get_threat_score "sql_injection" = 5) ∧
    (calculate_threat_level "rce" = "HIGH" ∧ get_threat_score "rce" = 5) ∧
    (calculate_threat_level "path_traversal" = "HIGH" ∧ get_threat_score "path_traversal" = 5) ∧
    (calculate_threat_level "file_inclusion" = "HIGH" ∧ get_threat_score "file_inclusion" = 5) ∧
    (calculate_threat_level "xss_attacks" = "MEDIUM" ∧ get_threat_score "xss_attacks" = 3) ∧
    (calculate_threat_level "directory_traversal" = "MEDIUM" ∧ get_threat_score "directory_traversal" = 3) ∧
    (calculate_threat_level "csrf" = "MEDIUM" ∧ get_threat_score "csrf" = 3) ∧
    (calculate_threat_level "scanning" = "LOW" ∧ get_threat_score "scanning" = 1) ∧
    (calculate_threat_level "probing" = "LOW" ∧ get_threat_score "probing" = 1) ∧
    (calculate_threat_level "information_gathering" = "LOW" ∧ get_threat_score "information_gathering" = 1) ∧
    (calculate_threat_level t = "UNKNOWN" ∧ get_threat_score t = 2) ∧
    (log_attack_iter s r "sql_injection" details ip now N).ip_threat_scores ip
      = s.ip_threat_scores ip + 5 * N := by
  simp only [List.mem_cons, List.mem_singleton, not_or] at hother
  obtain ⟨h1, h2, h3, h4, h5, h6, h7, h8, h9, h10⟩ := hother
  refine ⟨by decide, by decide, by decide, by decide, by decide, by decide, by decide,
    by decide, by decide, by decide, ?_, ?_⟩
  · constructor
    · simp [calculate_threat_level, h1, h2, h3, h4, h5, h6, h7, h8, h9, h10]
    · simp [get_threat_score, calculate_threat_level, h1, h2, h3, h4, h5, h6, h7, h8, h9, h10]
  · induction N with
    | zero => simp [log_attack_iter]
    | succ n ih =>
      have hscore : get_threat_score "sql_injection" = 5 := by decide
      simp [log_attack_iter, log_attack, ih, hscore]
      ring

/-- Witness for C3 at a concrete input: `"bogus"` is an unknown attack type
(level UNKNOWN, score 2), and three `sql_injection` records from a fresh
monitor give `10.0.0.1` a threat score of `5 * 3 = 15`. -/
theorem threat_score_mapping_spec_witness :
    (calculate_threat_level "bogus" = "UNKNOWN" ∧ get_threat_score "bogus" = 2) ∧
    (log_attack_iter initial_state sample_request "sql_injection" "" "10.0.0.1" 0 3).ip_threat_scores "10.0.0.1"
      = initial_state.ip_threat_scores "10.0.0.1" + 5 * 3 := by
  obtain ⟨_, _, _, _, _, _, _, _, _, _, hu, hacc⟩ :=
    threat_score_mapping_spec "bogus" "10.0.0.1" initial_state sample_request "" 0 3 (by decide)
  exact ⟨hu, hacc⟩

/-! ## Claim C5 — `get_high_threat_ips` reads a nonexistent attribute -/

/-- C5 (code bug): the attribute `get_high_threat_ips` iterates for its
scores, `self.threat_scores`, is not among the attributes the
`AttackMonitor` instance ever has — `__init__` creates exactly
`attack_monitor_instance_attributes` and no method assigns any new `self.`
attribute (the score store that `log_attack` feeds is `ip_threat_scores`).
Every call to `get_high_threat_ips` therefore raises `AttributeError`
instead of returning the threshold-filtered, score-sorted list the claim
describes. -/
theorem high_threat_ips_attribute_bug :
    get_high_threat_ips_score_attribute ∉ attack_monitor_instance_attributes ∧
    "ip_threat_scores" ∈ attack_monitor_instance_attributes := by
  decide

/-! ## Claim C1 — rate-limit denial -/

/-- The state after the first `n` requests of a request sequence from one
client: request `i` arrives at time `f i` and goes through
`check_rate_limit` (fresh process state at the start). -/
def rate_limit_run (ip : String) (f : Nat → Int) : Nat → ServerState
  | 0 => initial_state
  | i + 1 => (check_rate_limit (rate_limit_run ip f i) ip (f i)).2

lemma rate_limit_filter_all (f : Nat → Int)
    (hmono : ∀ i j, i ≤ j → j ≤ 100 → f i ≤ f j) (hwin : f 100 - f 0 < 60)
    (i : Nat) (hi : i ≤ 100) :
    ((List.range i).map f).filter (fun t => decide (f i - t < 60)) = (List.range i).map f := by
  apply List.filter_eq_self.mpr
  intro a ha
  simp only [List.mem_map, List.mem_range] at ha
  obtain ⟨j, hj, rfl⟩ := ha
  have h1 : f i ≤ f 100 := hmono i 100 hi (by omega)
  have h2 : f 0 ≤ f j := hmono 0 j (by omega) (by omega)
  simp only [decide_eq_true_eq]
  omega

lemma rate_limit_run_counts (ip : String) (f : Nat → Int)
    (hmono : ∀ i j, i ≤ j → j ≤ 100 → f i ≤ f j) (hwin : f 100 - f 0 < 60) :
    ∀ i, i ≤ 100 → (rate_limit_run ip f i).requestCounts ip = (List.range i).map f := by
  intro i
  induction i with
  | zero => intro _; simp [rate_limit_run, initial_state]
  | succ n ih =>
    intro hn
    have hn' : n ≤ 100 := by omega
    have hcounts := ih hn'
    have hfilter := rate_limit_filter_all f hmono hwin n hn'
    simp only [rate_limit_run, check_rate_limit, enable_rate_limiting, Bool.not_true,
      Bool.false_eq_true, if_false, hcounts, hfilter]
    have hlen : ((List.range n).map f).length = n := by simp
    have hnice : ¬ ((List.range n).map f).length ≥ max_requests_per_minute := by
      simp only [hlen, max_requests_per_minute]; omega
    simp only [if_neg hnice, if_pos rfl]
    rw [List.range_succ]
    simp

/-- C1: `check_rate_limit` denies exactly when the client's timestamp list
pruned to the last 60 seconds has at least `max_requests_per_minute`
(= 100) entries; consequently, for a client issuing 101 requests at
nondecreasing times all within one 60-second window (from a fresh state),
requests 1–100 are allowed and request 101 is denied with the client added
to the block list at the denial time. -/
theorem rate_limit_denial_spec (s : ServerState) (ip : String) (now : Int) (f : Nat → Int)
    (hmono : ∀ i j, i ≤ j → j ≤ 100 → f i ≤ f j) (hwin : f 100 - f 0 < 60) :
    ((check_rate_limit s ip now).1 = false ↔
      max_requests_per_minute ≤
        ((s.requestCounts ip).filter fun t => decide (now - t < 60)).length) ∧
    (∀ i, i < 100 → (check_rate_limit (rate_limit_run ip f i) ip (f i)).1 = true) ∧
    (check_rate_limit (rate_limit_run ip f 100) ip (f 100)).1 = false ∧
    (check_rate_limit (rate_limit_run ip f 100) ip (f 100)).2.blockedIps ip = some (f 100) := by
  have hiff : ∀ (s' : ServerState), (check_rate_limit s' ip now).1 = false ↔
      max_requests_per_minute ≤
        ((s'.requestCounts ip).filter fun t => decide (now - t < 60)).length := by
    intro s'
    by_cases hge :
        ((s'.requestCounts ip).filter fun t => decide (now - t < 60)).length ≥
          max_requests_per_minute
    · simp [check_rate_limit, enable_rate_limiting, hge]
    · simp only [check_rate_limit, enable_rate_limiting, Bool.not_true, Bool.false_eq_true,
        if_false, if_neg hge]
      simpa using hge
  refine ⟨hiff s, fun i hi => ?_, ?_, ?_⟩
  · have hcounts := rate_limit_run_counts ip f hmono hwin i (by omega)
    have hfilter := rate_limit_filter_all f hmono hwin i (by omega)
    simp only [check_rate_limit, enable_rate_limiting, Bool.not_true, Bool.false_eq_true,
      if_false, hcounts, hfilter, List.length_map, List.length_range, ge_iff_le]
    rw [if_neg (by simp only [max_requests_per_minute]; omega)]
  · have hcounts := rate_limit_run_counts ip f hmono hwin 100 (by omega)
    have hfilter := rate_limit_filter_all f hmono hwin 100 (by omega)
    generalize hS : rate_limit_run ip f 100 = S at hcounts ⊢
    simp only [check_rate_limit, enable_rate_limiting, Bool.not_true, Bool.false_eq_true,
      if_false, hcounts, hfilter, List.length_map, List.length_range, ge_iff_le]
    rw [if_pos (by simp only [max_requests_per_minute]; omega)]
  · have hcounts := rate_limit_run_counts ip f hmono hwin 100 (by omega)
    have hfilter := rate_limit_filter_all f hmono hwin 100 (by omega)
    generalize hS : rate_limit_run ip f 100 = S at hcounts ⊢
    simp only [check_rate_limit, enable_rate_limiting, Bool.not_true, Bool.false_eq_true,
      if_false, hcounts, hfilter, List.length_map, List.length_range, ge_iff_le]
    rw [if_pos (by simp only [max_requests_per_minute]; omega)]
    simp [block_ip, log_blocked_request, enable_ip_blocking]

/-- Witness for C1 at a concrete input: all 101 requests at time 0; the
101st is denied and `1.2.3.4` lands in the block registry with block
time 0. -/
theorem rate_limit_denial_spec_witness :
    (check_rate_limit (rate_limit_run "1.2.3.4" (fun _ => 0) 100) "1.2.3.4" 0).1 = false ∧
    (check_rate_limit (rate_limit_run "1.2.3.4" (fun _ => 0) 100) "1.2.3.4" 0).2.blockedIps "1.2.3.4"
      = some 0 := by
  obtain ⟨_, _, h3, h4⟩ :=
    rate_limit_denial_spec initial_state "1.2.3.4" 0 (fun _ => 0)
      (fun i j _ _ => le_refl 0) (by decide)
  exact ⟨h3, h4⟩

/-! ## Claim C4 — bounded FIFO attack history -/

/-- The argument tuple of one `AttackMonitor.log_attack` call. -/
structure LogCall where
  req : RequestInfo
  attack_type : String
  details : String
  client_ip : String
  now : Int

/-- The history entry a `log_attack` call appends. -/
def log_call_entry (c : LogCall) : AttackEntry :=
  attack_entry_of c.req c.attack_type c.details c.client_ip c.now

/-- A sequence of `log_attack` calls, applied in order. -/
def log_attack_run (s : ServerState) : List LogCall → ServerState
  | [] => s
  | c :: cs => log_attack_run (log_attack s c.req c.attack_type c.details c.client_ip c.now) cs

lemma log_attack_run_recent (cs : List LogCall) :
    ∀ s : ServerState,
      (log_attack_run s cs).recent_attacks = (cs.map log_call_entry).foldl deque_push s.recent_attacks := by
  induction cs with
  | nil => intro s; simp [log_attack_run]
  | cons c cs ih =>
    intro s
    simp only [log_attack_run, List.map_cons, List.foldl_cons, ih]
    rfl

lemma deque_push_below_cap (xs : List AttackEntry) (e : AttackEntry)
    (h : xs.length < 1000) : deque_push xs e = xs ++ [e] := by
  have h' : ¬ ((xs ++ [e]).length > 1000) := by
    simp only [List.length_append, List.length_singleton]; omega
  simp only [deque_push]
  rw [if_neg h']

lemma deque_push_at_cap (xs : List AttackEntry) (e : AttackEntry)
    (h : xs.length = 1000) : deque_push xs e = (xs ++ [e]).drop 1 := by
  have h' : (xs ++ [e]).length > 1000 := by
    simp only [List.length_append, List.length_singleton]; omega
  have h2 : (xs ++ [e]).length - 1000 = 1 := by
    simp only [List.length_append, List.length_singleton]; omega
  simp only [deque_push]
  rw [if_pos h', h2]

lemma deque_push_foldl (es : List AttackEntry) :
    ∀ xs : List AttackEntry, xs.length ≤ 1000 →
      es.foldl deque_push xs = (xs ++ es).drop (xs.length + es.length - 1000) := by
  induction es with
  | nil =>
    intro xs hxs
    simp [Nat.sub_eq_zero_of_le, hxs]
  | cons e es ih =>
    intro xs hxs
    simp only [List.foldl_cons]
    rcases Nat.lt_or_ge xs.length 1000 with hlt | hge
    · rw [deque_push_below_cap xs e hlt,
        ih (xs ++ [e]) (by simp only [List.length_append, List.length_singleton]; omega)]
      have harr : (xs ++ [e]) ++ es = xs ++ e :: es := by simp
      have hidx : (xs ++ [e]).length + es.length - 1000
          = xs.length + (e :: es).length - 1000 := by
        simp only [List.length_append, List.length_singleton, List.length_cons,
          List.length_nil]; omega
      rw [harr, hidx]
    · have heq : xs.length = 1000 := by omega
      have hlen1 : ((xs ++ [e]).drop 1).length = 1000 := by
        simp only [List.length_drop, List.length_append, List.length_singleton]; omega
      rw [deque_push_at_cap xs e heq, ih _ (le_of_eq hlen1), hlen1]
      have hidx : 1000 + es.length - 1000 = es.length := by omega
      have hsplit : (xs ++ [e]).drop 1 ++ es = ((xs ++ [e]) ++ es).drop 1 :=
        (List.drop_append_of_le_length
          (by simp only [List.length_append, List.length_singleton]; omega)).symm
      rw [hidx, hsplit, List.drop_drop]
      have harr : (xs ++ [e]) ++ es = xs ++ e :: es := by simp
      have hidx2 : 1 + es.length = xs.length + (e :: es).length - 1000 := by
        simp only [List.length_cons]; omega

      rw [harr, hidx2]

/-- C4: the in-memory attack history is a FIFO buffer of capacity 1000 —
after any sequence of more than 1000 `log_attack` calls from a fresh state,
the history holds exactly the entries of the most recent 1000 calls, in
insertion order. -/
theorem attack_history_bounded (cs : List LogCall) (h : 1000 < cs.length) :
    (log_attack_run initial_state cs).recent_attacks
      = (cs.map log_call_entry).drop (cs.length - 1000) ∧
    (log_attack_run initial_state cs).recent_attacks.length = 1000 := by
  have hrun := log_attack_run_recent cs initial_state
  have hfold := deque_push_foldl (cs.map log_call_entry) [] (by simp)
  have hinit : initial_state.recent_attacks = ([] : List AttackEntry) := rfl
  rw [hinit] at hrun
  have h1 : (log_attack_run initial_state cs).recent_attacks
      = (cs.map log_call_entry).drop (cs.length - 1000) := by
    rw [hrun, hfold]
    simp only [List.nil_append, List.length_nil, Nat.zero_add, List.length_map]
  refine ⟨h1, ?_⟩
  rw [h1]
  simp only [List.length_drop, List.length_map]
  omega

/-- A concrete `log_attack` call for the C4 witness: event `i` is an
`sql_injection` record at time `i`. -/
def sample_log_call (i : Nat) : LogCall where
  req := sample_request
  attack_type := "sql_injection"
  details := ""
  client_ip := "10.0.0.1"
  now := i

/-- Witness for C4 at a concrete input: 1500 recorded events leave exactly
1000 in the history — the most recent 1000 in insertion order. -/
theorem attack_history_bounded_witness :
    (log_attack_run initial_state ((List.range 1500).map sample_log_call)).recent_attacks
      = (((List.range 1500).map sample_log_call).map log_call_entry).drop
          (((List.range 1500).map sample_log_call).length - 1000) ∧
    (log_attack_run initial_state ((List.range 1500).map sample_log_call)).recent_attacks.length
      = 1000 :=
  attack_history_bounded ((List.range 1500).map sample_log_call)
    (by simp only [List.length_map, List.length_range]; omega)

/-! ## Claim C6 — windowed pattern analysis -/

lemma foldl_bump_apply (key : AttackEntry → String) (l : List AttackEntry) :
    ∀ (m : String → Nat) (t : String),
      (l.foldl (fun acc e => bump acc (key e)) m) t
        = m t + (l.filter fun e => decide (key e = t)).length := by
  induction l with
  | nil => intro m t; simp
  | cons e l ih =>
    intro m t
    simp only [List.foldl_cons, ih]
    by_cases h : key e = t
    · subst h
      simp [bump, List.filter_cons]
      omega
    · simp [bump, List.filter_cons, h, Ne.symm h]

lemma analysis_foldl_attack_types (l : List AttackEntry) :
    ∀ a : PatternAnalysis,
      (l.foldl analysis_step a).attack_types
        = l.foldl (fun m e => bump m e.attack_type) a.attack_types := by
  induction l with
  | nil => intro a; rfl
  | cons e l ih => intro a; simp only [List.foldl_cons, ih]; rfl

lemma analysis_foldl_top_attackers (l : List AttackEntry) :
    ∀ a : PatternAnalysis,
      (l.foldl analysis_step a).top_attackers
        = l.foldl (fun m e => bump m e.client_ip) a.top_attackers := by
  induction l with
  | nil => intro a; rfl
  | cons e l ih => intro a; simp only [List.foldl_cons, ih]; rfl

lemma analysis_foldl_threat_levels (l : List AttackEntry) :
    ∀ a : PatternAnalysis,
      (l.foldl analysis_step a).threat_levels
        = l.foldl (fun m e => bump m e.threat_level) a.threat_levels := by
  induction l with
  | nil => intro a; rfl
  | cons e l ih => intro a; simp only [List.foldl_cons, ih]; rfl

lemma analysis_foldl_paths (l : List AttackEntry) :
    ∀ a : PatternAnalysis,
      (l.foldl analysis_step a).most_targeted_paths
        = l.foldl (fun m e => bump m (strip_query e.url)) a.most_targeted_paths := by
  induction l with
  | nil => intro a; rfl
  | cons e l ih => intro a; simp only [List.foldl_cons, ih]; rfl

lemma analysis_foldl_total (l : List AttackEntry) :
    ∀ a : PatternAnalysis, (l.foldl analysis_step a).total_attacks = a.total_attacks := by
  induction l with
  | nil => intro a; rfl
  | cons e l ih => intro a; simp only [List.foldl_cons, ih]; rfl

lemma analysis_foldl_window (l : List AttackEntry) :
    ∀ a : PatternAnalysis,
      (l.foldl analysis_step a).time_window_hours = a.time_window_hours := by
  induction l with
  | nil => intro a; rfl
  | cons e l ih => intro a; simp only [List.foldl_cons, ih]; rfl

/-- The reconstructed `analyze_attack_patterns` computes exactly the
windowed counts the spec describes: over a window of `W` hours it
considers exactly the in-memory history entries with timestamp strictly
greater than `now - W` hours, and reports their total count together with
per-type, per-attacker-IP, per-threat-level and per-path (URL with query
string stripped) counts.  This characterizes the evident intent of the
syntactically invalid staged function. -/
theorem analyze_patterns_spec (s : ServerState) (now W : Int) (t a lvl p : String) :
    (analyze_attack_patterns s now W).time_window_hours = W ∧
    (analyze_attack_patterns s now W).total_attacks
      = (s.recent_attacks.filter fun e => decide (e.timestamp > now - W * 3600)).length ∧
    (analyze_attack_patterns s now W).attack_types t
      = ((s.recent_attacks.filter fun e => decide (e.timestamp > now - W * 3600)).filter
          fun e => decide (e.attack_type = t)).length ∧
    (analyze_attack_patterns s now W).top_attackers a
      = ((s.recent_attacks.filter fun e => decide (e.timestamp > now - W * 3600)).filter
          fun e => decide (e.client_ip = a)).length ∧
    (analyze_attack_patterns s now W).threat_levels lvl
      = ((s.recent_attacks.filter fun e => decide (e.timestamp > now - W * 3600)).filter
          fun e => decide (e.threat_level = lvl)).length ∧
    (analyze_attack_patterns s now W).most_targeted_paths p
      = ((s.recent_attacks.filter fun e => decide (e.timestamp > now - W * 3600)).filter
          fun e => decide (strip_query e.url = p)).length := by
  simp only [analyze_attack_patterns]
  refine ⟨?_, ?_, ?_, ?_, ?_, ?_⟩
  · rw [analysis_foldl_window]
  · rw [analysis_foldl_total]
  · rw [analysis_foldl_attack_types, foldl_bump_apply]; simp
  · rw [analysis_foldl_top_attackers, foldl_bump_apply]; simp
  · rw [analysis_foldl_threat_levels, foldl_bump_apply]; simp
  · rw [analysis_foldl_paths, foldl_bump_apply]; simp

/-- C6 (code bug): the staged source of
`AttackMonitor.analyze_attack_patterns` cannot compute the claimed
analysis — it cannot compute anything.  In the byte-for-byte transcription
of `monitoring.py` lines 314-318, the value assigned to `recent_attacks`
is the empty dict display, and the five lines close one more square
bracket than they open, so the `]` on line 318 is unmatched: the statement
suite is not parseable Python and the module fails at import, before any
request is served.  The claim's filter-and-count behaviour — proved of the
reconstruction in `analyze_patterns_spec` — is the evident intent. -/
theorem analyze_patterns_syntax_bug :
    analyze_patterns_staged_lines.headD "" = "        recent_attacks = \x7b\x7d" ∧
    count_char_in_lines analyze_patterns_staged_lines ']'
      = count_char_in_lines analyze_patterns_staged_lines '[' + 1 := by
  decide

/-! ## Claim C7 — proxied response fidelity -/

/-- A backend response that refutes byte-for-byte body preservation: valid
JSON (`" 1"`, an integer with leading whitespace) under an
`application/json` content type. -/
def json_backend_response : BackendResponse where
  status := 200
  headers := [("content-type", "application/json")]
  body := " 1"

/-- C7 counterexample: for the concrete backend response with content type
`application/json` and body `" 1"`, the gateway body is the re-serialized
`"1"` — not byte-for-byte equal to the backend body, refuting the claim
that the body is always returned unchanged. -/
theorem proxy_body_not_preserved_counterexample :
    (proxy_response_transform json_backend_response).body = "1" ∧
    json_backend_response.body = " 1" ∧
    (proxy_response_transform json_backend_response).body ≠ json_backend_response.body := by
  refine ⟨by decide, rfl, by decide⟩

/-- C7 as amended: on backend success the gateway response keeps the
backend's status code and its headers with only `content-length` removed,
preserves the `content-type` as media type (default `text/plain`), and
returns the body byte-for-byte **unless** the backend content type starts
with `application/json`, in which case the body is re-serialized
(`json.dumps(response.json())`, falling back to the decoded text when
parsing fails). -/
theorem proxy_transform_amended (resp : BackendResponse) :
    (proxy_response_transform resp).status = resp.status ∧
    (proxy_response_transform resp).headers = headers_pop resp.headers "content-length" ∧
    (proxy_response_transform resp).media_type = headers_get resp.headers "content-type" "text/plain" ∧
    (str_starts_with (headers_get resp.headers "content-type" "") "application/json" = false →
      (proxy_response_transform resp).body = resp.body) ∧
    (str_starts_with (headers_get resp.headers "content-type" "") "application/json" = true →
      (proxy_response_transform resp).body = json_reencode resp.body) := by
  refine ⟨rfl, rfl, rfl, fun h => ?_, fun h => ?_⟩
  · simp [proxy_response_transform, h]
  · simp [proxy_response_transform, h]

/-- Witness for C7's amended theorem at concrete inputs: a `text/html`
response body passes through unchanged, and the JSON response of the
counterexample is re-serialized. -/
theorem proxy_transform_amended_witness :
    (proxy_response_transform
      { status := 200, headers := [("content-type", "text/html"), ("content-length", "3")],
        body := " 1" }).body = " 1" ∧
    (proxy_response_transform json_backend_response).body = json_reencode " 1" := by
  constructor
  · exact (proxy_transform_amended
      { status := 200, headers := [("content-type", "text/html"), ("content-length", "3")],
        body := " 1" }).2.2.2.1 (by decide)
  · exact (proxy_transform_amended json_backend_response).2.2.2.2 (by decide)

/-! ## Claim C8 — malformed Range header falls back to the full file -/

/-- C8: a present Range header whose `bytes=` spec fails to parse (an
`int()` exception) or parses to an empty range list is served exactly as if
no Range header were present — the full-file branch — and the Range portion
can only ever answer 200 (full file) or 206 (partial content), never a
client-error status. -/
theorem range_fallback_spec (file_size : Int) (h : String) :
    (parse_ranges file_size (str_drop h 6) = .error ()
        ∨ parse_ranges file_size (str_drop h 6) = .ok [] →
      serve_range_portion file_size (some h) = serve_range_portion file_size none) ∧
    serve_range_portion file_size none = .fullFile ∧
    (∀ rh : Option String,
      range_outcome_status (serve_range_portion file_size rh) = 200 ∨
      range_outcome_status (serve_range_portion file_size rh) = 206) := by
  refine ⟨fun hfail => ?_, rfl, fun rh => ?_⟩
  · simp only [serve_range_portion]
    rcases hfail with hfail | hfail <;>
    · by_cases hb : str_starts_with h "bytes=" = true
      · simp [hb, hfail]
      · simp [Bool.eq_false_iff.mpr (fun hc => hb hc)]
  · rcases rh with _ | rh
    · left; rfl
    · simp only [serve_range_portion]
      by_cases hb : str_starts_with rh "bytes=" = true
      · simp only [hb, if_true]
        rcases hp : parse_ranges file_size (str_drop rh 6) with e | rs
        · left; rfl
        · rcases rs with _ | ⟨⟨st, en⟩, rs⟩
          · left; rfl
          · right; rfl
      · simp only [Bool.eq_false_iff.mpr (fun hc => hb hc), if_false]
        left; rfl

/-- Witness for C8 at a concrete input: `Range: bytes=abc-5` on a 10-byte
file fails integer parsing and is served as the full file. -/
theorem range_fallback_spec_witness :
    serve_range_portion 10 (some "bytes=abc-5") = serve_range_portion 10 none ∧
    serve_range_portion 10 none = .fullFile := by
  obtain ⟨h1, h2, _⟩ := range_fallback_spec 10 "bytes=abc-5"
  exact ⟨h1 (Or.inl (by rfl)), h2⟩

/-! ## State-effect lemmas for the per-request pipeline -/

lemma is_ip_blocked_state (s : ServerState) (ip : String) (now : Int) :
    (is_ip_blocked s ip now).2.blocked_requests = s.blocked_requests ∧
    (is_ip_blocked s ip now).2.requestCounts = s.requestCounts ∧
    (is_ip_blocked s ip now).2.suspicious_requests = s.suspicious_requests ∧
    (∀ other, other ≠ ip → (is_ip_blocked s ip now).2.blockedIps other = s.blockedIps other) := by
  simp only [is_ip_blocked, enable_ip_blocking, Bool.not_true, Bool.false_eq_true, if_false]
  rcases hB : s.blockedIps ip with _ | T
  · simp
  · by_cases ht : now - T < block_duration
    · simp [ht]
    · refine ⟨by simp [ht], by simp [ht], by simp [ht], fun o ho => ?_⟩
      simp [ht, if_neg ho]

lemma block_ip_state (s : ServerState) (ip reason : String) (now : Int) :
    (block_ip s ip reason now).blocked_requests = s.blocked_requests + 1 ∧
    (block_ip s ip reason now).blockedIps ip = some now ∧
    (∀ other, other ≠ ip → (block_ip s ip reason now).blockedIps other = s.blockedIps other) ∧
    (block_ip s ip reason now).requestCounts = s.requestCounts := by
  simp only [block_ip, log_blocked_request, enable_ip_blocking, Bool.not_true,
    Bool.false_eq_true, if_false]
  exact ⟨by simp, by simp, fun o ho => by simp [if_neg ho], by simp⟩

lemma check_rate_limit_deny_state (s : ServerState) (ip : String) (now : Int)
    (h : (check_rate_limit s ip now).1 = false) :
    (check_rate_limit s ip now).2.blocked_requests = s.blocked_requests + 1 ∧
    (check_rate_limit s ip now).2.suspicious_requests = s.suspicious_requests := by
  revert h
  simp only [check_rate_limit, enable_rate_limiting, Bool.not_true, Bool.false_eq_true, if_false]
  split_ifs with hge
  · intro _
    constructor
    · exact (block_ip_state _ ip "Rate limit exceeded" now).1
    · simp [block_ip, log_blocked_request, enable_ip_blocking]
  · intro h
    exact absurd h (by simp)

lemma check_rate_limit_allow_state (s : ServerState) (ip : String) (now : Int)
    (h : (check_rate_limit s ip now).1 = true) :
    (check_rate_limit s ip now).2.blocked_requests = s.blocked_requests ∧
    (check_rate_limit s ip now).2.suspicious_requests = s.suspicious_requests := by
  revert h
  simp only [check_rate_limit, enable_rate_limiting, Bool.not_true, Bool.false_eq_true, if_false]
  split_ifs with hge
  · intro h
    exact absurd h (by simp)
  · intro _
    exact ⟨rfl, rfl⟩

lemma log_attack_fields (s : ServerState) (r : RequestInfo) (a d ip : String) (now : Int) :
    (log_attack s r a d ip now).blocked_requests = s.blocked_requests ∧
    (log_attack s r a d ip now).blockedIps = s.blockedIps ∧
    (log_attack s r a d ip now).requestCounts = s.requestCounts :=
  ⟨rfl, rfl, rfl⟩

lemma log_suspicious_fields (s : ServerState) (ip reason : String) :
    (log_suspicious_request s ip reason).blocked_requests = s.blocked_requests ∧
    (log_suspicious_request s ip reason).blockedIps = s.blockedIps ∧
    (log_suspicious_request s ip reason).requestCounts = s.requestCounts :=
  ⟨rfl, rfl, rfl⟩

/-! ## Claim C9 — `blocked_requests` double counting -/

/-- C9: a request denied by the rate limiter or by the suspicious-request
threshold bumps `attack_stats["blocked_requests"]` by exactly 2 (once via
`block_ip → log_blocked_request` when the block is created and once more
when `security_middleware` converts the deny into the 403), while a request
denied because its IP is already on the block list bumps it by exactly 1
(only the middleware logs it). -/
theorem blocked_counter_increments (s : ServerState) (r : RequestInfo) (now : Int) :
    ((is_ip_blocked s (get_client_ip r) now).1 = true →
      (security_middleware s r now).1 = .denied403 ∧
      (security_middleware s r now).2.blocked_requests = s.blocked_requests + 1) ∧
    ((is_ip_blocked s (get_client_ip r) now).1 = false →
      (check_rate_limit (is_ip_blocked s (get_client_ip r) now).2 (get_client_ip r) now).1 = false →
      (security_middleware s r now).1 = .denied403 ∧
      (security_middleware s r now).2.blocked_requests = s.blocked_requests + 2) ∧
    ((is_ip_blocked s (get_client_ip r) now).1 = false →
      (check_rate_limit (is_ip_blocked s (get_client_ip r) now).2 (get_client_ip r) now).1 = true →
      is_suspicious_request r = true →
      suspicious_request_threshold ≤ count_suspicious_requests
        (check_rate_limit (is_ip_blocked s (get_client_ip r) now).2 (get_client_ip r) now).2
        (get_client_ip r) now →
      (security_middleware s r now).1 = .denied403 ∧
      (security_middleware s r now).2.blocked_requests = s.blocked_requests + 2) := by
  have hs1b : (is_ip_blocked s (get_client_ip r) now).2.blocked_requests = s.blocked_requests :=
    (is_ip_blocked_state s (get_client_ip r) now).1
  refine ⟨fun hb => ?_, fun hb hr => ?_, fun hb hr hsus hcnt => ?_⟩
  · have hana : analyze_request s r now
        = ((true, some .ipBlocked), (is_ip_blocked s (get_client_ip r) now).2) := by
      simp only [analyze_request]
      rw [if_pos hb]
    have hmw : security_middleware s r now
        = (.denied403, log_blocked_request (is_ip_blocked s (get_client_ip r) now).2
            (get_client_ip r) "") := by
      simp [security_middleware, hana]
    rw [hmw]
    exact ⟨rfl, by simp [log_blocked_request, hs1b]⟩
  · have hden := check_rate_limit_deny_state (is_ip_blocked s (get_client_ip r) now).2
      (get_client_ip r) now hr
    have hbne : ¬ ((is_ip_blocked s (get_client_ip r) now).1 = true) := by
      rw [hb]; simp
    have hrpos : (!(check_rate_limit (is_ip_blocked s (get_client_ip r) now).2
        (get_client_ip r) now).1) = true := by
      rw [hr]; rfl
    have hana : analyze_request s r now
        = ((true, some .rateLimitExceeded),
           (check_rate_limit (is_ip_blocked s (get_client_ip r) now).2 (get_client_ip r) now).2) := by
      simp only [analyze_request]
      rw [if_neg hbne, if_pos hrpos]
    have hmw : security_middleware s r now
        = (.denied403, log_blocked_request
            (check_rate_limit (is_ip_blocked s (get_client_ip r) now).2 (get_client_ip r) now).2
            (get_client_ip r) "") := by
      simp [security_middleware, hana]
    rw [hmw]
    refine ⟨rfl, ?_⟩
    simp only [log_blocked_request, hden.1, hs1b]
  · have hallow := check_rate_limit_allow_state (is_ip_blocked s (get_client_ip r) now).2
      (get_client_ip r) now hr
    have hbne : ¬ ((is_ip_blocked s (get_client_ip r) now).1 = true) := by
      rw [hb]; simp
    have hrneg : ¬ ((!(check_rate_limit (is_ip_blocked s (get_client_ip r) now).2
        (get_client_ip r) now).1) = true) := by
      rw [hr]; simp
    have hana : analyze_request s r now
        = ((true, some .multipleSuspicious),
           log_attack
             (block_ip
               (log_suspicious_request
                 (check_rate_limit (is_ip_blocked s (get_client_ip r) now).2 (get_client_ip r) now).2
                 (get_client_ip r) "")
               (get_client_ip r) "Multiple suspicious requests" now)
             r "scanning" "" (get_client_ip r) now) := by
      simp only [analyze_request]
      rw [if_neg hbne, if_neg hrneg, if_pos hsus,
        if_pos (show log_suspicious_activity = true from rfl)]
      have hcnt' : count_suspicious_requests
          (log_suspicious_request
            (check_rate_limit (is_ip_blocked s (get_client_ip r) now).2 (get_client_ip r) now).2
            (get_client_ip r) "")
          (get_client_ip r) now ≥ suspicious_request_threshold := hcnt
      rw [if_pos hcnt']
    have hmw : security_middleware s r now
        = (.denied403, log_blocked_request
            (log_attack
              (block_ip
                (log_suspicious_request
                  (check_rate_limit (is_ip_blocked s (get_client_ip r) now).2 (get_client_ip r) now).2
                  (get_client_ip r) "")
                (get_client_ip r) "Multiple suspicious requests" now)
              r "scanning" "" (get_client_ip r) now)
            (get_client_ip r) "") := by
      simp [security_middleware, hana]
    rw [hmw]
    refine ⟨rfl, ?_⟩
    simp only [log_blocked_request, log_attack, block_ip, log_suspicious_request,
      enable_ip_blocking, Bool.not_true, Bool.false_eq_true, if_false]
    simp only [hallow.1, hs1b]

/-- Concrete suspicious request for the C9 witness: `GET /.env` with the
client identity `1.2.3.4` presented in `x-real-ip`. -/
def env_probe_request : RequestInfo where
  method := "GET"
  url := "/.env"
  path := "/.env"
  query := ""
  user_agent := ""
  headers := fun h => if h = "x-real-ip" then some "1.2.3.4" else none
  peer := some "9.9.9.9"

/-- Concrete state for the C9 witness: `1.2.3.4` already has four recent
request timestamps, so the `/.env` probe is its fifth suspicious request in
the minute. -/
def c9_state : ServerState :=
  { initial_state with requestCounts := fun x => if x = "1.2.3.4" then [1, 2, 3, 4] else [] }

/-- Witness for C9 at a concrete input: the fifth suspicious request within
a minute is denied and bumps `blocked_requests` from 0 by exactly 2. -/
theorem blocked_counter_increments_witness :
    (security_middleware c9_state env_probe_request 10).1 = .denied403 ∧
    (security_middleware c9_state env_probe_request 10).2.blocked_requests
      = c9_state.blocked_requests + 2 := by
  obtain ⟨_, _, h3⟩ := blocked_counter_increments c9_state env_probe_request 10
  exact h3 (by decide) (by decide) (by decide) (by decide)

/-! ## Claim C10 — header-derived client identity -/

lemma check_rate_limit_other (s : ServerState) (ip : String) (now : Int) (other : String)
    (h : other ≠ ip) :
    (check_rate_limit s ip now).2.requestCounts other = s.requestCounts other ∧
    (check_rate_limit s ip now).2.blockedIps other = s.blockedIps other := by
  simp only [check_rate_limit, enable_rate_limiting, Bool.not_true, Bool.false_eq_true, if_false]
  split_ifs with hge
  · constructor
    · simp [block_ip, log_blocked_request, enable_ip_blocking, if_neg h]
    · simp [block_ip, log_blocked_request, enable_ip_blocking, if_neg h]
  · constructor <;> simp [if_neg h]

lemma analyze_request_eq_of_blocked (s : ServerState) (r : RequestInfo) (now : Int)
    (hb : (is_ip_blocked s (get_client_ip r) now).1 = true) :
    analyze_request s r now
      = ((true, some .ipBlocked), (is_ip_blocked s (get_client_ip r) now).2) := by
  simp only [analyze_request]
  rw [if_pos hb]

lemma analyze_request_eq_of_rate_limited (s : ServerState) (r : RequestInfo) (now : Int)
    (hb : (is_ip_blocked s (get_client_ip r) now).1 = false)
    (hr : (check_rate_limit (is_ip_blocked s (get_client_ip r) now).2 (get_client_ip r) now).1
      = false) :
    analyze_request s r now
      = ((true, some .rateLimitExceeded),
         (check_rate_limit (is_ip_blocked s (get_client_ip r) now).2 (get_client_ip r) now).2) := by
  simp only [analyze_request]
  rw [if_neg (by rw [hb]; simp), if_pos (by rw [hr]; rfl)]

lemma analyze_request_eq_of_suspicious_block (s : ServerState) (r : RequestInfo) (now : Int)
    (hb : (is_ip_blocked s (get_client_ip r) now).1 = false)
    (hr : (check_rate_limit (is_ip_blocked s (get_client_ip r) now).2 (get_client_ip r) now).1
      = true)
    (hsus : is_suspicious_request r = true)
    (hcnt : suspicious_request_threshold ≤ count_suspicious_requests
      (check_rate_limit (is_ip_blocked s (get_client_ip r) now).2 (get_client_ip r) now).2
      (get_client_ip r) now) :
    analyze_request s r now
      = ((true, some .multipleSuspicious),
         log_attack
           (block_ip
             (log_suspicious_request
               (check_rate_limit (is_ip_blocked s (get_client_ip r) now).2 (get_client_ip r) now).2
               (get_client_ip r) "")
             (get_client_ip r) "Multiple suspicious requests" now)
           r "scanning" "" (get_client_ip r) now) := by
  simp only [analyze_request]
  rw [if_neg (by rw [hb]; simp), if_neg (by rw [hr]; simp), if_pos hsus,
    if_pos (show log_suspicious_activity = true from rfl)]
  have hcnt' : count_suspicious_requests
      (log_suspicious_request
        (check_rate_limit (is_ip_blocked s (get_client_ip r) now).2 (get_client_ip r) now).2
        (get_client_ip r) "")
      (get_client_ip r) now ≥ suspicious_request_threshold := hcnt
  rw [if_pos hcnt']

lemma analyze_request_eq_of_suspicious_under (s : ServerState) (r : RequestInfo) (now : Int)
    (hb : (is_ip_blocked s (get_client_ip r) now).1 = false)
    (hr : (check_rate_limit (is_ip_blocked s (get_client_ip r) now).2 (get_client_ip r) now).1
      = true)
    (hsus : is_suspicious_request r = true)
    (hcnt : ¬ suspicious_request_threshold ≤ count_suspicious_requests
      (check_rate_limit (is_ip_blocked s (get_client_ip r) now).2 (get_client_ip r) now).2
      (get_client_ip r) now) :
    analyze_request s r now
      = ((false, none),
         log_suspicious_request
           (check_rate_limit (is_ip_blocked s (get_client_ip r) now).2 (get_client_ip r) now).2
           (get_client_ip r) "") := by
  simp only [analyze_request]
  rw [if_neg (by rw [hb]; simp), if_neg (by rw [hr]; simp), if_pos hsus,
    if_pos (show log_suspicious_activity = true from rfl)]
  have hcnt' : ¬ (count_suspicious_requests
      (log_suspicious_request
        (check_rate_limit (is_ip_blocked s (get_client_ip r) now).2 (get_client_ip r) now).2
        (get_client_ip r) "")
      (get_client_ip r) now ≥ suspicious_request_threshold) := hcnt
  rw [if_neg hcnt']

lemma analyze_request_eq_of_clean (s : ServerState) (r : RequestInfo) (now : Int)
    (hb : (is_ip_blocked s (get_client_ip r) now).1 = false)
    (hr : (check_rate_limit (is_ip_blocked s (get_client_ip r) now).2 (get_client_ip r) now).1
      = true)
    (hsus : is_suspicious_request r = false) :
    analyze_request s r now
      = ((false, none),
         (check_rate_limit (is_ip_blocked s (get_client_ip r) now).2 (get_client_ip r) now).2) := by
  simp only [analyze_request]
  rw [if_neg (by rw [hb]; simp), if_neg (by rw [hr]; simp), if_neg (by rw [hsus]; simp)]

lemma get_client_ip_from_ignores_peer (r : RequestInfo) (p p' : Option String) :
    ∀ hs : List String, (∃ hname ∈ hs, ∃ v, r.headers hname = some v ∧ v ≠ "") →
      get_client_ip_from { r with peer := p } hs = get_client_ip_from { r with peer := p' } hs := by
  intro hs
  induction hs with
  | nil =>
    rintro ⟨hname, hmem, _⟩
    simp at hmem
  | cons hd tl ih =>
    rintro ⟨hname, hmem, v, hv, hvne⟩
    simp only [get_client_ip_from]
    cases hhd : r.headers hd with
    | some w =>
      by_cases hw : w ≠ ""
      · simp [hw]
      · simp only [not_not] at hw
        subst hw
        simp only [ne_eq, not_true_eq_false, if_false]
        apply ih
        rcases List.mem_cons.mp hmem with rfl | htl
        · rw [hhd] at hv
          exact absurd (Option.some.injEq _ _ ▸ hv) (by simpa using fun h => hvne h.symm)
        · exact ⟨hname, htl, v, hv, hvne⟩
    | none =>
      apply ih
      rcases List.mem_cons.mp hmem with rfl | htl
      · rw [hhd] at hv
        exact absurd hv (by simp)
      · exact ⟨hname, htl, v, hv, hvne⟩

/-- Two requests from the same transport peer whose `x-real-ip` values
differ but share the first comma-separated entry. -/
def forged_header_request_a : RequestInfo where
  method := "GET"
  url := "/index.html"
  path := "/index.html"
  query := ""
  user_agent := ""
  headers := fun h => if h = "x-real-ip" then some "1.2.3.4,a" else none
  peer := some "9.9.9.9"

def forged_header_request_b : RequestInfo where
  method := "GET"
  url := "/index.html"
  path := "/index.html"
  query := ""
  user_agent := ""
  headers := fun h => if h = "x-real-ip" then some "1.2.3.4,b" else none
  peer := some "9.9.9.9"

/-- C10 counterexample: with `1.2.3.4` on the block list, the request
presenting the header value `"1.2.3.4,a"` — a value different from the
blocked identity — is still denied by that block (the comma split maps it
to `1.2.3.4`), and the two requests differing only in that header value
(`"1.2.3.4,a"` vs `"1.2.3.4,b"`) resolve to the same client identity, so
they are not tracked as distinct clients. -/
theorem client_identity_counterexample :
    ("1.2.3.4,a" : String) ≠ "1.2.3.4" ∧
    ("1.2.3.4,a" : String) ≠ "1.2.3.4,b" ∧
    get_client_ip forged_header_request_a = "1.2.3.4" ∧
    get_client_ip forged_header_request_b = get_client_ip forged_header_request_a ∧
    (analyze_request (block_ip initial_state "1.2.3.4" "test" 0) forged_header_request_a 10).1
      = (true, some .ipBlocked) := by
  decide

/-- C10 as amended: the client identity is the first present non-empty
header among `x-real-ip`, `x-forwarded-for`, `x-forwarded`,
`forwarded-for`, `fwd` (reduced to its first comma-separated entry,
stripped, when it contains a comma), in preference to the transport peer:
when such a header is present, the transport peer is irrelevant to the
identity; all tracking, rate-limiting and blocking state of any identity
other than the derived one is untouched by a request; and a request whose
derived identity has no block-registry entry is never denied by the
blocked-IP check. -/
theorem client_identity_amended (r : RequestInfo) (p p' : Option String)
    (s : ServerState) (now : Int) (other : String) :
    ((∃ hname ∈ client_ip_headers, ∃ v, r.headers hname = some v ∧ v ≠ "") →
      get_client_ip { r with peer := p } = get_client_ip { r with peer := p' }) ∧
    (other ≠ get_client_ip r →
      (analyze_request s r now).2.requestCounts other = s.requestCounts other ∧
      (analyze_request s r now).2.blockedIps other = s.blockedIps other) ∧
    (s.blockedIps (get_client_ip r) = none →
      (analyze_request s r now).1.2 ≠ some .ipBlocked) := by
  refine ⟨fun hex => ?_, fun hne => ?_, fun hnone => ?_⟩
  · exact get_client_ip_from_ignores_peer r p p' client_ip_headers hex
  · have hibs := is_ip_blocked_state s (get_client_ip r) now
    have hcro := check_rate_limit_other (is_ip_blocked s (get_client_ip r) now).2
      (get_client_ip r) now other hne
    have hib_counts : (is_ip_blocked s (get_client_ip r) now).2.requestCounts other
        = s.requestCounts other := congrFun hibs.2.1 other
    have hib_blocked : (is_ip_blocked s (get_client_ip r) now).2.blockedIps other
        = s.blockedIps other := hibs.2.2.2 other hne
    by_cases hb : (is_ip_blocked s (get_client_ip r) now).1 = true
    · rw [analyze_request_eq_of_blocked s r now hb]
      exact ⟨hib_counts, hib_blocked⟩
    · rw [Bool.not_eq_true] at hb
      by_cases hr : (check_rate_limit (is_ip_blocked s (get_client_ip r) now).2
          (get_client_ip r) now).1 = true
      · by_cases hsus : is_suspicious_request r = true
        · by_cases hcnt : suspicious_request_threshold ≤ count_suspicious_requests
              (check_rate_limit (is_ip_blocked s (get_client_ip r) now).2 (get_client_ip r) now).2
              (get_client_ip r) now
          · rw [analyze_request_eq_of_suspicious_block s r now hb hr hsus hcnt]
            constructor
            · show (check_rate_limit (is_ip_blocked s (get_client_ip r) now).2
                (get_client_ip r) now).2.requestCounts other = s.requestCounts other
              rw [hcro.1, hib_counts]
            · show (block_ip
                  (log_suspicious_request
                    (check_rate_limit (is_ip_blocked s (get_client_ip r) now).2
                      (get_client_ip r) now).2
                    (get_client_ip r) "")
                  (get_client_ip r) "Multiple suspicious requests" now).blockedIps other
                = s.blockedIps other
              rw [(block_ip_state _ (get_client_ip r) "Multiple suspicious requests" now).2.2.1
                other hne]
              show (check_rate_limit (is_ip_blocked s (get_client_ip r) now).2
                (get_client_ip r) now).2.blockedIps other = s.blockedIps other
              rw [hcro.2, hib_blocked]
          · rw [analyze_request_eq_of_suspicious_under s r now hb hr hsus hcnt]
            constructor
            · show (check_rate_limit (is_ip_blocked s (get_client_ip r) now).2
                (get_client_ip r) now).2.requestCounts other = s.requestCounts other
              rw [hcro.1, hib_counts]
            · show (check_rate_limit (is_ip_blocked s (get_client_ip r) now).2
                (get_client_ip r) now).2.blockedIps other = s.blockedIps other
              rw [hcro.2, hib_blocked]
        · rw [Bool.not_eq_true] at hsus
          rw [analyze_request_eq_of_clean s r now hb hr hsus]
          exact ⟨by rw [hcro.1, hib_counts], by rw [hcro.2, hib_blocked]⟩
      · rw [Bool.not_eq_true] at hr
        rw [analyze_request_eq_of_rate_limited s r now hb hr]
        exact ⟨by rw [hcro.1, hib_counts], by rw [hcro.2, hib_blocked]⟩
  · have hb : (is_ip_blocked s (get_client_ip r) now).1 = false := by
      simp [is_ip_blocked, enable_ip_blocking, hnone]
    by_cases hr : (check_rate_limit (is_ip_blocked s (get_client_ip r) now).2
        (get_client_ip r) now).1 = true
    · by_cases hsus : is_suspicious_request r = true
      · by_cases hcnt : suspicious_request_threshold ≤ count_suspicious_requests
            (check_rate_limit (is_ip_blocked s (get_client_ip r) now).2 (get_client_ip r) now).2
            (get_client_ip r) now
        · rw [analyze_request_eq_of_suspicious_block s r now hb hr hsus hcnt]
          simp
        · rw [analyze_request_eq_of_suspicious_under s r now hb hr hsus hcnt]
          simp
      · rw [Bool.not_eq_true] at hsus
        rw [analyze_request_eq_of_clean s r now hb hr hsus]
        simp
    · rw [Bool.not_eq_true] at hr
      rw [analyze_request_eq_of_rate_limited s r now hb hr]
      simp

/-- Witness for C10's amended theorem at concrete inputs: the identity of
the `x-real-ip`-bearing probe request is peer-independent, the request
leaves the state of the unrelated identity `5.6.7.8` untouched, and on a
fresh state (empty block registry) it is not denied by the blocked-IP
check. -/
theorem client_identity_amended_witness :
    get_client_ip { env_probe_request with peer := some "8.8.8.8" }
      = get_client_ip { env_probe_request with peer := none } ∧
    (analyze_request initial_state env_probe_request 10).2.requestCounts "5.6.7.8"
      = initial_state.requestCounts "5.6.7.8" ∧
    (analyze_request initial_state env_probe_request 10).2.blockedIps "5.6.7.8"
      = initial_state.blockedIps "5.6.7.8" ∧
    (analyze_request initial_state env_probe_request 10).1.2 ≠ some .ipBlocked := by
  obtain ⟨h1, h2, h3⟩ :=
    client_identity_amended env_probe_request (some "8.8.8.8") none initial_state 10 "5.6.7.8"
  have hex : ∃ hname ∈ client_ip_headers, ∃ v,
      env_probe_request.headers hname = some v ∧ v ≠ "" :=
    ⟨"x-real-ip", by decide, "1.2.3.4", by decide, by decide⟩
  obtain ⟨h2a, h2b⟩ := h2 (by decide)
  exact ⟨h1 hex, h2a, h2b, h3 (by decide)⟩
